import Mathlib

/-!
Shallow embedding of `src/kettle.py` (the `Kettle` appliance state machine).

Python floats are modelled as rationals (`ℚ`); the wall clock
(`time.time()`) is modelled by passing the current time `now : ℚ` to the
operations that read it.  The five configuration constants, loaded from an
external source in the Python code, are a read-only `Config` record.
Each mutating Python method is translated to a function from the old state
to the new state; a method that can `raise` additionally returns an
optional error, and the state component it returns is the state the object
holds at the moment of the `raise` (in `kettle.py` every `raise` happens
before any field assignment, which the proofs below make explicit).
Exception messages are elided: errors are identified by their class only.
-/

/-- The four-state status enum `KettleStatus` from `kettle.py`. -/
inductive KettleStatus where
  | on
  | off
  | ready
  | stopped
  deriving DecidableEq

/-- The snapshot dataclass `KettleCondition`: a (status, temperature) pair. -/
structure KettleCondition where
  status : KettleStatus
  temperature : ℚ
  deriving DecidableEq

/-- The three exception classes of `kettle.py`, identified by class
(`KettleFillingError`, `KettleSwitchError`, `KettlePouringError`). -/
inductive KettleError where
  | filling
  | switching
  | pouring
  deriving DecidableEq

/-- The five configuration constants read in `Kettle.__init__` from the
external `settings.config`; immutable for the appliance lifetime. -/
structure Config where
  min_volume : ℚ
  max_volume : ℚ
  start_temperature : ℚ
  max_temperature : ℚ
  boiling_time : ℚ
  deriving DecidableEq

/-- The mutable fields of a `Kettle` object.  `start_time` is an `Option`
because the Python attribute does not exist until `_start` first assigns
it. -/
structure Kettle where
  volume : ℚ
  temperature : ℚ
  status : KettleStatus
  start_time : Option ℚ
  deriving DecidableEq

/-- `Kettle.__init__`: volume 0, temperature at `start_temperature`,
status `OFF`, no `start_time` attribute yet. -/
def Kettle.init (cfg : Config) : Kettle :=
  { volume := 0
    temperature := cfg.start_temperature
    status := .off
    start_time := none }

/-- `Kettle.fill_in`: reject a negative volume, reject a volume above
`max_volume`, otherwise overwrite `self.volume`. -/
def fill_in (cfg : Config) (k : Kettle) (volume : ℚ) : Option KettleError × Kettle :=
  if volume < 0 then (some .filling, k)
  else if volume > cfg.max_volume then (some .filling, k)
  else (none, { k with volume := volume })

/-- `Kettle.pour_out`: reject while `ON`; otherwise return the held
volume, zero the volume and set status `OFF`. -/
def pour_out (k : Kettle) : Except KettleError ℚ × Kettle :=
  if k.status = .on then (.error .pouring, k)
  else (.ok k.volume, { k with volume := 0, status := .off })

/-- `Kettle._start`: reject when `volume < min_volume`; otherwise record
`start_time = now` and set status `ON`. -/
def _start (cfg : Config) (k : Kettle) (now : ℚ) : Option KettleError × Kettle :=
  if k.volume < cfg.min_volume then (some .switching, k)
  else (none, { k with start_time := some now, status := .on })

/-- `Kettle._stop`: set status `STOPPED` (and nothing else — in
particular `start_time` is left in place). -/
def _stop (k : Kettle) : Kettle :=
  { k with status := .stopped }

/-- `Kettle.switch`: dispatch on the current status; any status other
than `OFF` or `ON` raises `KettleSwitchError`. -/
def switch (cfg : Config) (k : Kettle) (now : ℚ) : Option KettleError × Kettle :=
  if k.status = .off then _start cfg k now
  else if k.status = .on then (none, _stop k)
  else (some .switching, k)

/-- `Kettle._update_temperature`: no effect unless `ON`; past
`boiling_time` set `max_temperature` and status `READY`; otherwise set
`temperature = (max_temperature - start_temperature) * (elapsed / boiling_time)`
exactly as on lines 99–100 of the source (note: the source does NOT add
`start_temperature` to this product).  When `status == ON` the Python
attribute `start_time` always exists (it is assigned by `_start` and never
deleted), so the `none` branch below is unreachable from any reachable
state; it is modelled as a no-op. -/
def _update_temperature (cfg : Config) (k : Kettle) (now : ℚ) : Kettle :=
  if k.status ≠ .on then k
  else
    match k.start_time with
    | none => k
    | some st =>
      let time_since_start := now - st
      if time_since_start ≥ cfg.boiling_time then
        { k with temperature := cfg.max_temperature, status := .ready }
      else
        { k with temperature :=
            (cfg.max_temperature - cfg.start_temperature) *
              (time_since_start / cfg.boiling_time) }

/-- `Kettle.check_condition`: advance the temperature, then report the
(status, temperature) snapshot.  Never raises. -/
def check_condition (cfg : Config) (k : Kettle) (now : ℚ) : KettleCondition × Kettle :=
  let k2 := _update_temperature cfg k now
  (⟨k2.status, k2.temperature⟩, k2)

/-- One invocation of one of the four public operations, with the clock
reading for the operations that consult `time.time()`. -/
inductive Op where
  | fill (v : ℚ)
  | pour
  | toggle (now : ℚ)
  | sample (now : ℚ)

/-- The state after performing one operation (on a raised exception the
state component returned by the operation is kept, which the
error-freedom theorem below shows is the unchanged pre-call state). -/
def step (cfg : Config) (k : Kettle) : Op → Kettle
  | .fill v => (fill_in cfg k v).2
  | .pour => (pour_out k).2
  | .toggle now => (switch cfg k now).2
  | .sample now => (check_condition cfg k now).2

/-- The state after performing a sequence of operations. -/
def run (cfg : Config) (k : Kettle) : List Op → Kettle
  | [] => k
  | op :: ops => run cfg (step cfg k op) ops

/-- A state is reachable when some sequence of public operations produces
it from the freshly constructed appliance. -/
def Reachable (cfg : Config) (k : Kettle) : Prop :=
  ∃ ops : List Op, run cfg (Kettle.init cfg) ops = k

/-- The concrete configuration of the spec's worked scenario:
min 0.2, max 1.0, start temperature 20, max temperature 100, boiling
time 60 seconds. -/
def testConfig : Config :=
  { min_volume := 1/5
    max_volume := 1
    start_temperature := 20
    max_temperature := 100
    boiling_time := 60 }

/-- Claim C6: `fill_in v` succeeds exactly when `0 ≤ v ≤ max_volume`, in
which case the stored volume becomes `v` (replacing the prior volume) and
status, temperature and start_time are unchanged; for `v < 0` or
`v > max_volume` it fails with the filling error and leaves the whole
state unchanged. -/
theorem C6_fill_spec (cfg : Config) (k : Kettle) (v : ℚ) :
    (0 ≤ v → v ≤ cfg.max_volume →
      fill_in cfg k v = (none, { k with volume := v })) ∧
    (v < 0 ∨ v > cfg.max_volume →
      fill_in cfg k v = (some .filling, k)) := by
  constructor
  · intro h0 h1
    simp [fill_in, not_lt.mpr h0, not_lt.mpr h1]
  · intro h
    by_cases h1 : v < 0 <;> rcases h with h | h <;>
      simp [fill_in, h, h1]

/-- Witness for C6 at the spec scenario: filling 0.5 into the fresh
appliance succeeds and stores volume 0.5. -/
theorem C6_fill_spec_witness :
    fill_in testConfig (Kettle.init testConfig) (1/2) =
      (none, { Kettle.init testConfig with volume := 1/2 }) :=
  (C6_fill_spec testConfig (Kettle.init testConfig) (1/2)).1
    (by norm_num) (by norm_num [testConfig])

/-- Claim C7: `pour_out` fails with the pouring error exactly when status
is `ON`; otherwise it returns the held volume, zeroes the volume, sets
status `OFF` and leaves temperature (and start_time) unchanged. -/
theorem C7_pour_spec (k : Kettle) :
    (k.status = .on → pour_out k = (.error .pouring, k)) ∧
    (k.status ≠ .on →
      pour_out k = (.ok k.volume, { k with volume := 0, status := .off })) := by
  constructor <;> intro h <;> simp [pour_out, h]

/-- Witness for C7 at a concrete `READY` state: pouring succeeds,
returns the prior volume and resets to `OFF`. -/
theorem C7_pour_spec_witness :
    pour_out ⟨1/2, 100, .ready, some 0⟩ =
      (.ok (1/2), ⟨0, 100, .off, some 0⟩) :=
  (C7_pour_spec ⟨1/2, 100, .ready, some 0⟩).2 (by simp)

/-- Claim C5: the full transition table of `switch`: `OFF` with enough
water goes to `ON` recording `start_time = now`; `OFF` with
`volume < min_volume` fails with the switch error; `ON` always goes to
`STOPPED`; `READY` and `STOPPED` always fail with the switch error,
leaving the state unchanged in every failing case. -/
theorem C5_switch_spec (cfg : Config) (k : Kettle) (now : ℚ) :
    (k.status = .off → cfg.min_volume ≤ k.volume →
      switch cfg k now = (none, { k with start_time := some now, status := .on })) ∧
    (k.status = .off → k.volume < cfg.min_volume →
      switch cfg k now = (some .switching, k)) ∧
    (k.status = .on →
      switch cfg k now = (none, { k with status := .stopped })) ∧
    (k.status = .ready ∨ k.status = .stopped →
      switch cfg k now = (some .switching, k)) := by
  refine ⟨?_, ?_, ?_, ?_⟩
  · intro h hv
    simp [switch, _start, h, not_lt.mpr hv]
  · intro h hv
    simp [switch, _start, h, hv]
  · intro h
    simp [switch, _stop, h]
  · rintro (h | h) <;> simp [switch, h]

/-- Witness for C5: toggling a concrete `ON` state yields `STOPPED`. -/
theorem C5_switch_spec_witness :
    switch testConfig ⟨1/2, 40, .on, some 0⟩ 5 =
      (none, ⟨1/2, 40, .stopped, some 0⟩) :=
  (C5_switch_spec testConfig ⟨1/2, 40, .on, some 0⟩ 5).2.2.1 rfl

/-- Claim C8: whenever one of the fallible operations reports an error,
the state it leaves behind is exactly the pre-call state (every field
unchanged); `check_condition` never errors, so the three fallible
operations are `fill_in`, `pour_out` and `switch`. -/
theorem C8_error_no_mutation (cfg : Config) (k : Kettle) (v now : ℚ) (e : KettleError) :
    ((fill_in cfg k v).1 = some e → (fill_in cfg k v).2 = k) ∧
    ((pour_out k).1 = .error e → (pour_out k).2 = k) ∧
    ((switch cfg k now).1 = some e → (switch cfg k now).2 = k) := by
  refine ⟨?_, ?_, ?_⟩
  · intro h
    by_cases h1 : v < 0
    · simp [fill_in, h1]
    · by_cases h2 : v > cfg.max_volume <;> simp [fill_in, h1, h2] at h ⊢
  · intro h
    by_cases hs : k.status = .on <;> simp [pour_out, hs] at h ⊢
  · intro h
    cases hs : k.status
    · simp [switch, hs] at h
    · simp [switch, hs] at h ⊢
      by_cases hv : k.volume < cfg.min_volume
      · simp [_start, hv]
      · simp [_start, hv] at h
    · simp [switch, hs]
    · simp [switch, hs]

/-- Witness for C8: a rejected negative fill on the fresh appliance
leaves the state exactly as constructed. -/
theorem C8_error_no_mutation_witness :
    (fill_in testConfig (Kettle.init testConfig) (-1)).2 = Kettle.init testConfig :=
  (C8_error_no_mutation testConfig (Kettle.init testConfig) (-1) 0 .filling).1
    (by norm_num [fill_in])

/-- Claim C10: `fill_in` never inspects the status: for any state
(including `ON`) and any `v` with `0 ≤ v ≤ max_volume` it succeeds,
replaces the volume and leaves status, start_time and temperature
unchanged. -/
theorem C10_fill_ignores_status (cfg : Config) (k : Kettle) (v : ℚ)
    (h0 : 0 ≤ v) (h1 : v ≤ cfg.max_volume) :
    (fill_in cfg k v).1 = none ∧
    (fill_in cfg k v).2.volume = v ∧
    (fill_in cfg k v).2.status = k.status ∧
    (fill_in cfg k v).2.start_time = k.start_time ∧
    (fill_in cfg k v).2.temperature = k.temperature := by
  simp [fill_in, not_lt.mpr h0, not_lt.mpr h1]

/-- Witness for C10: refilling a concrete actively heating (`ON`) state
succeeds and the appliance stays `ON`. -/
theorem C10_fill_ignores_status_witness :
    (fill_in testConfig ⟨1/2, 30, .on, some 0⟩ (3/4)).1 = none ∧
    (fill_in testConfig ⟨1/2, 30, .on, some 0⟩ (3/4)).2.status = KettleStatus.on := by
  have h := C10_fill_ignores_status testConfig ⟨1/2, 30, .on, some 0⟩ (3/4)
    (by norm_num) (by norm_num [testConfig])
  exact ⟨h.1, h.2.2.1⟩

/-- Claim C1 (code evaluation): in the spec scenario (start 20, max 100,
boiling 60 s), after `fill 0.5` and switching on at time 0 the appliance
is `ON`, yet sampling at elapsed time 30 sets and returns temperature
`(100 - 20) * (30 / 60) = 40`, whereas the formula the claim states,
`start_temperature + (max_temperature - start_temperature) * (e / boiling_duration)`,
gives `60`: lines 99–100 of the source omit the `start_temperature`
addend. -/
theorem C1_code_eval :
    (run testConfig (Kettle.init testConfig) [Op.fill (1/2), Op.toggle 0]).status = .on ∧
    (check_condition testConfig
        (run testConfig (Kettle.init testConfig) [Op.fill (1/2), Op.toggle 0]) 30).1.temperature = 40 ∧
    (check_condition testConfig
        (run testConfig (Kettle.init testConfig) [Op.fill (1/2), Op.toggle 0]) 30).1.status = .on ∧
    testConfig.start_temperature +
        (testConfig.max_temperature - testConfig.start_temperature) *
          (30 / testConfig.boiling_time) = 60 := by
  norm_num [run, step, fill_in, switch, _start, check_condition,
    _update_temperature, Kettle.init, testConfig]

/-- Claim C3 (code evaluation): the reachable state obtained by
`fill 0.5`, switching on at time 0 and sampling at time 0 (elapsed 0,
heating-derived temperature) is still `ON` but holds temperature
`(100 - 20) * (0 / 60) = 0`, strictly below `start_temperature = 20`:
the claimed lower bound `start_temperature ≤ temperature` fails on the
code. -/
theorem C3_code_eval :
    (run testConfig (Kettle.init testConfig) [Op.fill (1/2), Op.toggle 0, Op.sample 0]).status = .on ∧
    (run testConfig (Kettle.init testConfig) [Op.fill (1/2), Op.toggle 0, Op.sample 0]).temperature = 0 ∧
    (run testConfig (Kettle.init testConfig) [Op.fill (1/2), Op.toggle 0, Op.sample 0]).temperature <
      testConfig.start_temperature := by
  norm_num [run, step, fill_in, switch, _start, check_condition,
    _update_temperature, Kettle.init, testConfig]

/-- Claim C4: from an `ON` state whose elapsed time `now - start_time`
has reached `boiling_time`, `check_condition` reports (`READY`,
`max_temperature`), the post state holds exactly those values, and the
state is terminal: every further `check_condition` call, at any time,
returns the same pair and leaves the state unchanged. -/
theorem C4_boiled_terminal (cfg : Config) (k : Kettle) (now st : ℚ)
    (hon : k.status = .on) (hst : k.start_time = some st)
    (he : cfg.boiling_time ≤ now - st) :
    (check_condition cfg k now).1 = ⟨.ready, cfg.max_temperature⟩ ∧
    (check_condition cfg k now).2 =
      { k with temperature := cfg.max_temperature, status := .ready } ∧
    ∀ now2 : ℚ, check_condition cfg (check_condition cfg k now).2 now2 =
      (⟨.ready, cfg.max_temperature⟩, (check_condition cfg k now).2) := by
  have hupd : _update_temperature cfg k now =
      { k with temperature := cfg.max_temperature, status := .ready } := by
    simp [_update_temperature, hon, hst, he]
  refine ⟨?_, ?_, ?_⟩
  · simp [check_condition, hupd]
  · simp [check_condition, hupd]
  · intro now2
    have h2 : (check_condition cfg k now).2 =
        { k with temperature := cfg.max_temperature, status := .ready } := by
      simp [check_condition, hupd]
    rw [h2]
    simp [check_condition, _update_temperature]

/-- Witness for C4: sampling the spec scenario's `ON` state at exactly
the boiling time yields (`READY`, 100). -/
theorem C4_boiled_terminal_witness :
    (check_condition testConfig ⟨1/2, 20, .on, some 0⟩ 60).1 =
      ⟨.ready, testConfig.max_temperature⟩ :=
  (C4_boiled_terminal testConfig ⟨1/2, 20, .on, some 0⟩ 60 0 rfl rfl
    (by norm_num [testConfig])).1

/-- Any property preserved by every single step holds after any sequence
of operations. -/
theorem run_preserves (cfg : Config) (P : Kettle → Prop)
    (hstep : ∀ k op, P k → P (step cfg k op)) :
    ∀ (ops : List Op) (k : Kettle), P k → P (run cfg k ops)
  | [], _, h => h
  | op :: ops, k, h => run_preserves cfg P hstep ops _ (hstep k op h)

/-- Case enumeration of the possible effects of one operation: either the
state is unchanged (every error case, and sampling while not `ON`), or it
is one of the six successful updates, each of which changes only the
listed fields. -/
theorem step_shape (cfg : Config) (k : Kettle) (op : Op) :
    step cfg k op = k ∨
    (∃ v, step cfg k op = { k with volume := v }) ∨
    (k.status ≠ .on ∧ step cfg k op = { k with volume := 0, status := .off }) ∨
    (k.status = .off ∧ ∃ t, step cfg k op = { k with start_time := some t, status := .on }) ∨
    (k.status = .on ∧ step cfg k op = { k with status := .stopped }) ∨
    (k.status = .on ∧ step cfg k op =
      { k with temperature := cfg.max_temperature, status := .ready }) ∨
    (k.status = .on ∧ ∃ q, step cfg k op = { k with temperature := q }) := by
  cases op with
  | fill v =>
    by_cases h1 : v < 0
    · exact Or.inl (by simp [step, fill_in, h1])
    · by_cases h2 : v > cfg.max_volume
      · exact Or.inl (by simp [step, fill_in, h1, h2])
      · exact Or.inr (Or.inl ⟨v, by simp [step, fill_in, h1, h2]⟩)
  | pour =>
    by_cases hs : k.status = .on
    · exact Or.inl (by simp [step, pour_out, hs])
    · exact Or.inr (Or.inr (Or.inl ⟨hs, by simp [step, pour_out, hs]⟩))
  | toggle now =>
    cases hs : k.status
    · exact Or.inr (Or.inr (Or.inr (Or.inr (Or.inl
        ⟨rfl, by simp [step, switch, _stop, hs]⟩))))
    · by_cases hv : k.volume < cfg.min_volume
      · exact Or.inl (by simp [step, switch, _start, hs, hv])
      · exact Or.inr (Or.inr (Or.inr (Or.inl
          ⟨rfl, now, by simp [step, switch, _start, hs, hv]⟩)))
    · exact Or.inl (by simp [step, switch, hs])
    · exact Or.inl (by simp [step, switch, hs])
  | sample now =>
    by_cases hs : k.status = .on
    · cases hst : k.start_time with
      | none =>
        exact Or.inl (by simp [step, check_condition, _update_temperature, hs, hst])
      | some st =>
        by_cases ht : now - st ≥ cfg.boiling_time
        · exact Or.inr (Or.inr (Or.inr (Or.inr (Or.inr (Or.inl
            ⟨hs, by simp [step, check_condition, _update_temperature, hs, hst, ht]⟩)))))
        · exact Or.inr (Or.inr (Or.inr (Or.inr (Or.inr (Or.inr
            ⟨hs, (cfg.max_temperature - cfg.start_temperature) * ((now - st) / cfg.boiling_time),
              by simp [step, check_condition, _update_temperature, hs, hst, ht]⟩)))))
    · exact Or.inl (by simp [step, check_condition, _update_temperature, hs])

/-- Counterexample to claim C2 as stated: after `fill 0.5`, switching on
at time 0 and switching again at time 1 (the `ON → STOPPED` transition),
the appliance is `STOPPED`, yet `start_time` is still `some 0`: `_stop`
does not clear `start_time`, so it is not true that `start_time` is set
only while `ON`. -/
theorem C2_counterexample :
    (run testConfig (Kettle.init testConfig) [Op.fill (1/2), Op.toggle 0, Op.toggle 1]).status =
      KettleStatus.stopped ∧
    (run testConfig (Kettle.init testConfig) [Op.fill (1/2), Op.toggle 0, Op.toggle 1]).start_time =
      some 0 := by
  norm_num [run, step, fill_in, switch, _start, _stop, Kettle.init, testConfig]
  simp

/-- Claim C2 amended: in every reachable state, if the status is `ON`
then `start_time` is set; moreover `start_time`, once set, is never
cleared by any operation — in particular the `ON → STOPPED` transition of
`switch` leaves `start_time` exactly as it was (it does NOT clear it). -/
theorem C2_start_time_inv (cfg : Config) (k : Kettle) (h : Reachable cfg k) :
    (k.status = .on → k.start_time.isSome = true) ∧
    (∀ op : Op, k.start_time.isSome = true → (step cfg k op).start_time.isSome = true) ∧
    (k.status = .on → ∀ now : ℚ, (switch cfg k now).2.start_time = k.start_time) := by
  refine ⟨?_, ?_, ?_⟩
  · obtain ⟨ops, rfl⟩ := h
    refine run_preserves cfg
      (fun s => s.status = .on → s.start_time.isSome = true) ?_ ops (Kettle.init cfg) ?_
    · intro s op hP
      rcases step_shape cfg s op with h0 | ⟨v, h0⟩ | ⟨hsn, h0⟩ | ⟨hs, t, h0⟩ |
        ⟨hs, h0⟩ | ⟨hs, h0⟩ | ⟨hs, q, h0⟩ <;> rw [h0]
      · exact hP
      · exact hP
      · simp
      · simp
      · simp
      · simp
      · intro _
        exact hP hs
    · intro hinit
      simp [Kettle.init] at hinit
  · intro op hsome
    rcases step_shape cfg k op with h0 | ⟨v, h0⟩ | ⟨hsn, h0⟩ | ⟨hs, t, h0⟩ |
      ⟨hs, h0⟩ | ⟨hs, h0⟩ | ⟨hs, q, h0⟩ <;> rw [h0] <;> simp_all
  · intro hs now
    simp [switch, _stop, hs]

/-- Witness for the amended C2: the reachable state after `fill 0.5` and
switching on at time 0 has `start_time` set. -/
theorem C2_start_time_inv_witness :
    (run testConfig (Kettle.init testConfig) [Op.fill (1/2), Op.toggle 0]).start_time.isSome = true := by
  refine (C2_start_time_inv testConfig _ ⟨[Op.fill (1/2), Op.toggle 0], rfl⟩).1 ?_
  norm_num [run, step, fill_in, switch, _start, Kettle.init, testConfig]

/-- Claim C9: in every reachable state, status `READY` implies the
temperature is exactly `max_temperature`: `READY` is only ever entered by
`_update_temperature` setting `max_temperature`, and no operation changes
the temperature while the status stays `READY`. -/
theorem C9_ready_max_temp (cfg : Config) (k : Kettle) (h : Reachable cfg k)
    (hr : k.status = .ready) : k.temperature = cfg.max_temperature := by
  obtain ⟨ops, rfl⟩ := h
  refine run_preserves cfg
    (fun s => s.status = .ready → s.temperature = cfg.max_temperature) ?_ ops
    (Kettle.init cfg) ?_ hr
  · intro s op hP
    rcases step_shape cfg s op with h0 | ⟨v, h0⟩ | ⟨hsn, h0⟩ | ⟨hs, t, h0⟩ |
      ⟨hs, h0⟩ | ⟨hs, h0⟩ | ⟨hs, q, h0⟩ <;> rw [h0]
    · exact hP
    · exact hP
    · simp
    · simp
    · simp
    · simp
    · intro hr2
      simp at hr2
      rw [hs] at hr2
      exact absurd hr2 (by simp)
  · intro hinit
    simp [Kettle.init] at hinit

/-- Witness for C9: the reachable state reached by `fill 0.5`, switching
on at time 0 and sampling at time 60 is `READY` and, by the theorem, its
temperature equals `max_temperature` (100). -/
theorem C9_ready_max_temp_witness :
    (run testConfig (Kettle.init testConfig) [Op.fill (1/2), Op.toggle 0, Op.sample 60]).temperature =
      testConfig.max_temperature := by
  refine C9_ready_max_temp testConfig _ ⟨[Op.fill (1/2), Op.toggle 0, Op.sample 60], rfl⟩ ?_
  norm_num [run, step, fill_in, switch, _start, check_condition,
    _update_temperature, Kettle.init, testConfig]
